/-
Verification of the delinquencytracker loan origination and payment-schedule
engine: a shallow embedding of the Go source (business.go, the payment-state
methods, and the persistence layer) together with proofs of the specified
properties.

Modelling conventions:
* Go `float64` values (amounts, rates) are modelled as exact rationals `ℚ`.
* Go `int`/`int64` are modelled as `Int`.
* Go `time.Time` instants are modelled by their normalized UTC calendar
  decomposition (`GoTime` below); comparison of instants (`Before`/`After`)
  is lexicographic comparison of the normalized fields, and the Go zero
  time value (January 1, year 1, 00:00:00 UTC) is `GoTime.zero`.
* Wall-clock reads (`time.Now().UTC()`) are passed as an explicit `now`
  parameter, as the spec's design notes require for testability.
* The SQL database is modelled by an explicit `DBState` threaded through the
  persistence operations; external storage failures are injected through
  boolean failure oracles carried in the state.
-/
import Mathlib

namespace DelinquencyTracker

/-! ## Calendar model (proleptic Gregorian, as Go's time package) -/

/-- Leap-year test of the proleptic Gregorian calendar used by Go's `time`
package: divisible by 4, except century years not divisible by 400. -/
def isLeapYear (y : Int) : Bool :=
  y % 4 == 0 && (y % 100 != 0 || y % 400 == 0)

/-- Number of days in month `m` (1..12) of year `y`.  This is the semantics
of the Go idiom `time.Date(y, m+1, 0, 0, 0, 0, 0, time.UTC).Day()` used in
`calculateDueDate`: day 0 of the next month is the last day of month `m`. -/
def daysInMonth (y m : Int) : Int :=
  if m = 1 ∨ m = 3 ∨ m = 5 ∨ m = 7 ∨ m = 8 ∨ m = 10 ∨ m = 12 then 31
  else if m = 4 ∨ m = 6 ∨ m = 9 ∨ m = 11 then 30
  else if isLeapYear y then 29 else 28

/-- A Go `time.Time` instant, represented by its normalized UTC calendar
decomposition (year, month 1..12, day of month, time of day).  Two
normalized values compare as instants field-lexicographically. -/
structure GoTime where
  year : Int
  month : Int
  day : Int
  hour : Int
  minute : Int
  second : Int
  nsec : Int
deriving DecidableEq

/-- The Go zero time value: January 1, year 1, 00:00:00 UTC. -/
def GoTime.zero : GoTime := ⟨1, 1, 1, 0, 0, 0, 0⟩

/-- The strict instant order on normalized UTC calendar decompositions:
lexicographic on (year, month, day, hour, minute, second, nsec). -/
def GoTime.ltProp (a b : GoTime) : Prop :=
  a.year < b.year ∨ (a.year = b.year ∧
    (a.month < b.month ∨ (a.month = b.month ∧
      (a.day < b.day ∨ (a.day = b.day ∧
        (a.hour < b.hour ∨ (a.hour = b.hour ∧
          (a.minute < b.minute ∨ (a.minute = b.minute ∧
            (a.second < b.second ∨ (a.second = b.second ∧
              a.nsec < b.nsec)))))))))))

instance (a b : GoTime) : Decidable (GoTime.ltProp a b) := by
  unfold GoTime.ltProp; infer_instance

/-- Go `a.Before(b)`: instant `a` is strictly before instant `b`. -/
def GoTime.before (a b : GoTime) : Bool := decide (GoTime.ltProp a b)

/-- Go `a.After(b)`: instant `a` is strictly after instant `b`. -/
def GoTime.after (a b : GoTime) : Bool := decide (GoTime.ltProp b a)

/-- Go `t.IsZero()`: `t` is the zero time instant. -/
def GoTime.isZero (t : GoTime) : Bool := decide (t = GoTime.zero)

/-! ## Amortization calculator (`calculateMonthlyPayment`, business.go) -/

/-- `calculateMonthlyPayment` from business.go: the fixed monthly installment
by the standard amortization formula, with the zero-rate special case
`principal / months` guarding against the 0/0 degeneracy.  `math.Pow` at an
integer exponent is modelled by `zpow`. -/
def calculateMonthlyPayment (principal annualRate : ℚ) (months : Int) : ℚ :=
  let mnthlyInterestRate : ℚ := annualRate / 12
  if annualRate = 0 then principal / (months : ℚ)
  else
    let numirator := mnthlyInterestRate * (1 + mnthlyInterestRate) ^ months
    let denominator := (1 + mnthlyInterestRate) ^ months - 1
    principal * (numirator / denominator)

/-! ## Due-date generator (`calculateDueDate`, business.go) -/

/-- The `for month > 12 { month -= 12; year++ }` normalization loop of
`calculateDueDate`. -/
def normalizeYM (year month : Int) : Int × Int :=
  if 12 < month then normalizeYM (year + 1) (month - 12) else (year, month)
termination_by month.toNat
decreasing_by simp_wf; omega

/-- `calculateDueDate` from business.go (current version): add `termMonths`
months to the start date's year/month, normalize the month into 1..12 with
year rollover, clamp the requested day of month to the target month's last
day, and return that date at midnight UTC. -/
def calculateDueDate (startDate : GoTime) (termMonths dayDue : Int) : GoTime :=
  let ym := normalizeYM startDate.year (startDate.month + termMonths)
  let lastDayOfMonth := daysInMonth ym.1 ym.2
  let actualDay := if lastDayOfMonth < dayDue then lastDayOfMonth else dayDue
  ⟨ym.1, ym.2, actualDay, 0, 0, 0, 0⟩

/-! ## Payment state evaluator (payment methods) -/

/-- The `payment` record (payment.go): one scheduled installment. -/
structure Payment where
  id : Int
  loanID : Int
  paymentNumber : Int
  amountDue : ℚ
  amountPaid : ℚ
  dueDate : GoTime
  paidDate : GoTime
  createdAt : GoTime

/-- `IsFullyPaid`: the payment has been paid in full. -/
def Payment.IsFullyPaid (p : Payment) : Bool :=
  decide (p.amountDue ≤ p.amountPaid)

/-- `IsOverdue`: the payment is past its due date and not fully paid.  The
Go method reads `time.Now().UTC()`; the current instant is the explicit
`now` parameter. -/
def Payment.IsOverdue (p : Payment) (now : GoTime) : Bool :=
  GoTime.after now p.dueDate && !(p.IsFullyPaid)

/-- `RemainingBalance`: how much is still owed on this payment, floored
at zero. -/
def Payment.RemainingBalance (p : Payment) : ℚ :=
  let remaining := p.amountDue - p.amountPaid
  if remaining < 0 then 0 else remaining

/-- `CheckLate` (unnamed/part_007): true when the payment was completed
after its due date.  Note the source compares `PaidDate.After(DueDate)`
directly, with no check that a paid date is present. -/
def Payment.CheckLate (p : Payment) : Bool :=
  if GoTime.after p.paidDate p.dueDate then true else false

/-! ## Data model (loan.go, user.go) -/

/-- The `Loan` record: a borrowing agreement with its in-memory attached
payment schedule (`Payments` is populated by the workflow, not stored). -/
structure Loan where
  id : Int
  userID : Int
  totalAmount : ℚ
  interestRate : ℚ
  termMonths : Int
  dayDue : Int
  status : String
  dateTaken : GoTime
  createdAt : GoTime
  payments : List Payment

/-- The `User` record with its in-memory attached loans. -/
structure User where
  id : Int
  name : String
  email : String
  phone : String
  createdAt : GoTime
  loans : List Loan

/-! ## Error model

Each `fmt.Errorf` site in the source becomes one constructor carrying
exactly the values the format string interpolates; `%w` wrapping becomes
constructor nesting.  The underlying SQL error is abstracted to the
operation's own message. -/

/-- The validation errors of `validateLoanParameters`, one constructor per
`fmt.Errorf` branch, carrying the offending value the message prints. -/
inductive LoanParamError where
  /-- "totalAmount must be positive, got %.2f" -/
  | totalAmountNotPositive (got : ℚ)
  /-- "interestRate cannot be negative, got %.4f" -/
  | interestRateNegative (got : ℚ)
  /-- "termMonths must be positive, got %d" -/
  | termMonthsNotPositive (got : Int)
  /-- "dayDue must be between 1 and 31, got %d" -/
  | dayDueOutOfRange (got : Int)
  /-- "dateTaken cannot be zero time" -/
  | dateTakenZero

/-- The error values surfaced by the persistence layer and the business
workflows.  A `wrap…` constructor is a `fmt.Errorf("…: %w", …)` site and
carries the identifiers its format string names. -/
inductive GoError where
  /-- A storage-layer failure, e.g. "failed to create payment: %w"; the
  SQL cause is abstract. -/
  | storage (op : String)
  /-- The error returned by `validateLoanParameters`. -/
  | validation (e : LoanParamError)
  /-- "invalid loan parameters: %w" -/
  | wrapInvalidParams (inner : GoError)
  /-- "failed to create User: %w" -/
  | wrapCreateUser (inner : GoError)
  /-- "failed to create Loan for User %d: %w" -/
  | wrapCreateLoanForUser (userID : Int) (inner : GoError)
  /-- "failed to create Payment %d: %w" (createPaymentSchedule) -/
  | wrapCreatePayment (paymentNumber : Int) (inner : GoError)
  /-- "failed to create payment schedule for Loan %d: %w" -/
  | wrapCreateSchedule (loanID : Int) (inner : GoError)
  /-- "User %d not found: %w" (AddLoanToExistingUser) -/
  | wrapUserNotFound (userID : Int) (inner : GoError)

/-! ## Persistence collaborator model

The SQL database is a record of stored rows plus the id/timestamp counters
the database assigns on insert.  External storage failures (connectivity,
constraint violations) are nondeterministic in reality; they are injected
here through failure oracles carried in the state: `userCreateFails`,
`loanCreateFails`, and `paymentCreateFails` (keyed by payment number). -/
structure DBState where
  nextUserID : Int
  nextLoanID : Int
  nextPaymentID : Int
  /-- The `created_at` timestamp the database assigns on insert. -/
  clock : GoTime
  storedUsers : List User
  storedLoans : List Loan
  storedPayments : List Payment
  userCreateFails : Bool
  loanCreateFails : Bool
  paymentCreateFails : Int → Bool

/-- `CreateUser` (user CRUD): INSERT returning the new row's id and
created_at; the returned record echoes the inputs with `Loans = nil`. -/
def CreateUser (db : DBState) (name email phone : String) :
    DBState × Except GoError User :=
  if db.userCreateFails then (db, .error (.storage "failed to create user"))
  else
    let usr : User := ⟨db.nextUserID, name, email, phone, db.clock, []⟩
    ({ db with nextUserID := db.nextUserID + 1,
               storedUsers := db.storedUsers ++ [usr] }, .ok usr)

/-- `GetUserByID` (user CRUD): SELECT by id; "user with ID %d not found"
when no row matches. -/
def GetUserByID (db : DBState) (userID : Int) : Except GoError User :=
  match db.storedUsers.find? (fun u => u.id = userID) with
  | some usr => .ok usr
  | none => .error (.storage "user not found")

/-- `CreateLoan` (loan CRUD): INSERT returning id and created_at; the
returned record echoes the inputs with `Payments = nil`. -/
def CreateLoan (db : DBState) (userID : Int) (totalAmount interestRate : ℚ)
    (termMonths dayDue : Int) (status : String) (dateTaken : GoTime) :
    DBState × Except GoError Loan :=
  if db.loanCreateFails then (db, .error (.storage "failed to create loan"))
  else
    let ln : Loan := ⟨db.nextLoanID, userID, totalAmount, interestRate,
                      termMonths, dayDue, status, dateTaken, db.clock, []⟩
    ({ db with nextLoanID := db.nextLoanID + 1,
               storedLoans := db.storedLoans ++ [ln] }, .ok ln)

/-- `CreatePayment` (payment CRUD): INSERT returning id and created_at;
the returned record echoes the inputs. -/
def CreatePayment (db : DBState) (loanID paymentNumber : Int)
    (amountDue amountPaid : ℚ) (dueDate paidDate : GoTime) :
    DBState × Except GoError Payment :=
  if db.paymentCreateFails paymentNumber then
    (db, .error (.storage "failed to create payment"))
  else
    let pmt : Payment := ⟨db.nextPaymentID, loanID, paymentNumber,
                          amountDue, amountPaid, dueDate, paidDate, db.clock⟩
    ({ db with nextPaymentID := db.nextPaymentID + 1,
               storedPayments := db.storedPayments ++ [pmt] }, .ok pmt)

/-! ## Loan origination workflow (business.go, current version) -/

/-- `validateLoanParameters` from business.go: the fail-fast input checks,
in source order, returning the first violation (or `none`). -/
def validateLoanParameters (totalAmount interestRate : ℚ)
    (termMonths dayDue : Int) (dateTaken : GoTime) : Option LoanParamError :=
  if totalAmount ≤ 0 then some (.totalAmountNotPositive totalAmount)
  else if interestRate < 0 then some (.interestRateNegative interestRate)
  else if termMonths ≤ 0 then some (.termMonthsNotPositive termMonths)
  else if dayDue < 1 ∨ 31 < dayDue then some (.dayDueOutOfRange dayDue)
  else if dateTaken.isZero then some .dateTakenZero
  else none

/-- Statement-side rendering of the claim "a single descriptive validation
error naming the invalid field": the returned error's constructor carries
the offending value and that value indeed violates its constraint. -/
def namesInvalidField (totalAmount interestRate : ℚ) (termMonths dayDue : Int)
    (dateTaken : GoTime) : LoanParamError → Prop
  | .totalAmountNotPositive got => got = totalAmount ∧ totalAmount ≤ 0
  | .interestRateNegative got => got = interestRate ∧ interestRate < 0
  | .termMonthsNotPositive got => got = termMonths ∧ termMonths ≤ 0
  | .dayDueOutOfRange got => got = dayDue ∧ (dayDue < 1 ∨ 31 < dayDue)
  | .dateTakenZero => dateTaken = GoTime.zero

/-- One iteration of `createPaymentSchedule`'s loop body, successful case:
the payment record `CreatePayment` constructs for installment `num` when
the database assigns it row id `pid` and timestamp `clock`. -/
def scheduledPayment (clock : GoTime) (loanID : Int) (monthlyPayment : ℚ)
    (dayDue : Int) (dateTaken now : GoTime) (autoPayPastDue : Bool)
    (num pid : Int) : Payment :=
  let dueDate := calculateDueDate dateTaken num dayDue
  let settle : ℚ × GoTime :=
    if autoPayPastDue && GoTime.before dueDate now then
      (monthlyPayment, dueDate)
    else
      (0, GoTime.zero)
  ⟨pid, loanID, num, monthlyPayment, settle.1, dueDate, settle.2, clock⟩

/-- The `for i := 1; i <= termMonths; i++` loop of `createPaymentSchedule`:
`i` is the current installment number, `n` the number of iterations left.
On a `CreatePayment` failure the loop aborts with
"failed to create Payment %d: %w" and the already-written rows stay. -/
def schedLoop (loanID : Int) (monthlyPayment : ℚ) (dayDue : Int)
    (dateTaken : GoTime) (autoPayPastDue : Bool) (now : GoTime) :
    DBState → Int → Nat → DBState × Except GoError (List Payment)
  | db, _, 0 => (db, .ok [])
  | db, i, n + 1 =>
    let dueDate := calculateDueDate dateTaken i dayDue
    let settle : ℚ × GoTime :=
      if autoPayPastDue && GoTime.before dueDate now then
        (monthlyPayment, dueDate)
      else
        (0, GoTime.zero)
    match CreatePayment db loanID i monthlyPayment settle.1 dueDate settle.2 with
    | (db1, .error e) => (db1, .error (.wrapCreatePayment i e))
    | (db1, .ok pmt) =>
      match schedLoop loanID monthlyPayment dayDue dateTaken autoPayPastDue now
          db1 (i + 1) n with
      | (db2, .error e) => (db2, .error e)
      | (db2, .ok rest) => (db2, .ok (pmt :: rest))

/-- `createPaymentSchedule` from business.go: compute the monthly payment
once, then create installments 1..termMonths in ascending order, marking an
installment settled on creation exactly when `autoPayPastDue` is set and
its due date is strictly before `now` (the wall clock read the Go function
performs on entry). -/
def createPaymentSchedule (db : DBState) (loanID : Int)
    (principal annualRate : ℚ) (termMonths dayDue : Int) (dateTaken : GoTime)
    (autoPayPastDue : Bool) (now : GoTime) :
    DBState × Except GoError (List Payment) :=
  let monthlyPayment := calculateMonthlyPayment principal annualRate termMonths
  schedLoop loanID monthlyPayment dayDue dateTaken autoPayPastDue now
    db 1 termMonths.toNat

/-- `InitializeUserWithLoan` from business.go (current version): validate,
create the user, create the loan, build the schedule, and assemble the
aggregate; each failing stage aborts with its own wrapping error and no
stage rolls back the previous ones. -/
def InitializeUserWithLoan (db : DBState) (name email phone : String)
    (totalAmount interestRate : ℚ) (termMonths dayDue : Int)
    (dateTaken : GoTime) (autoPayPastDue : Bool) (now : GoTime) :
    DBState × Except GoError User :=
  match validateLoanParameters totalAmount interestRate termMonths dayDue dateTaken with
  | some e => (db, .error (.wrapInvalidParams (.validation e)))
  | none =>
    match CreateUser db name email phone with
    | (db1, .error e) => (db1, .error (.wrapCreateUser e))
    | (db1, .ok usr) =>
      match CreateLoan db1 usr.id totalAmount interestRate termMonths dayDue
          "active" dateTaken with
      | (db2, .error e) => (db2, .error (.wrapCreateLoanForUser usr.id e))
      | (db2, .ok ln) =>
        match createPaymentSchedule db2 ln.id totalAmount interestRate
            termMonths dayDue dateTaken autoPayPastDue now with
        | (db3, .error e) => (db3, .error (.wrapCreateSchedule ln.id e))
        | (db3, .ok pmts) =>
          (db3, .ok { usr with loans := [{ ln with payments := pmts }] })

/-- `AddLoanToExistingUser` from business.go (current version): validate,
verify the user exists, create the loan, build the schedule. -/
def AddLoanToExistingUser (db : DBState) (userID : Int)
    (totalAmount interestRate : ℚ) (termMonths dayDue : Int)
    (dateTaken : GoTime) (autoPayPastDue : Bool) (now : GoTime) :
    DBState × Except GoError Loan :=
  match validateLoanParameters totalAmount interestRate termMonths dayDue dateTaken with
  | some e => (db, .error (.wrapInvalidParams (.validation e)))
  | none =>
    match GetUserByID db userID with
    | .error e => (db, .error (.wrapUserNotFound userID e))
    | .ok _ =>
      match CreateLoan db userID totalAmount interestRate termMonths dayDue
          "active" dateTaken with
      | (db1, .error e) => (db1, .error (.wrapCreateLoanForUser userID e))
      | (db1, .ok ln) =>
        match createPaymentSchedule db1 ln.id totalAmount interestRate
            termMonths dayDue dateTaken autoPayPastDue now with
        | (db2, .error e) => (db2, .error (.wrapCreateSchedule ln.id e))
        | (db2, .ok pmts) =>
          (db2, .ok { ln with payments := pmts })

/-! ## Basic lemmas -/

theorem GoTime.before_iff (a b : GoTime) :
    GoTime.before a b = true ↔ GoTime.ltProp a b := by
  simp [GoTime.before]

theorem GoTime.after_iff (a b : GoTime) :
    GoTime.after a b = true ↔ GoTime.ltProp b a := by
  simp [GoTime.after]

theorem Payment.checkLate_eq_after (p : Payment) :
    p.CheckLate = GoTime.after p.paidDate p.dueDate := by
  by_cases h : GoTime.after p.paidDate p.dueDate = true <;>
    simp [Payment.CheckLate, h]

/-! ## Claim theorems: payment state evaluator -/

/-- C7: for every payment record and every current instant `now`,
`IsOverdue` returns true exactly when `now` is strictly after the due date
and the payment is not fully paid (`amountPaid < amountDue`); consequently
an overpaid or exactly-fully-paid payment is never overdue. -/
theorem isOverdue_iff_past_due_and_unpaid (p : Payment) (now : GoTime) :
    p.IsOverdue now = true ↔
      (GoTime.ltProp p.dueDate now ∧ p.amountPaid < p.amountDue) := by
  simp [Payment.IsOverdue, Payment.IsFullyPaid, GoTime.after, not_le]

/-- C10: for every payment record, `IsFullyPaid` returns true exactly when
`RemainingBalance` returns 0 — fully paid and positive remaining balance
never coincide, and a zero remaining balance always classifies the payment
as fully paid. -/
theorem isFullyPaid_iff_remainingBalance_zero (p : Payment) :
    p.IsFullyPaid = true ↔ p.RemainingBalance = 0 := by
  simp only [Payment.IsFullyPaid, Payment.RemainingBalance, decide_eq_true_eq]
  split_ifs with h
  · constructor
    · intro _; rfl
    · intro _; linarith
  · constructor <;> intro h2 <;> linarith

/-- C8 counterexample: `CheckLate` performs no presence check on the paid
date.  A payment whose paid date is absent (the Go zero time value) but
whose due date lies strictly before the zero instant (such dates are
representable: Go's calendar extends before year 1) is reported late, while
the claim requires that a payment with no paid date is never late. -/
theorem checkLate_absent_paidDate_cex :
    (Payment.paidDate ⟨1, 1, 1, 100, 0, ⟨0, 12, 31, 0, 0, 0, 0⟩,
        GoTime.zero, GoTime.zero⟩ = GoTime.zero) ∧
    Payment.CheckLate ⟨1, 1, 1, 100, 0, ⟨0, 12, 31, 0, 0, 0, 0⟩,
        GoTime.zero, GoTime.zero⟩ = true := by
  constructor
  · rfl
  · decide

/-- C8 (amended): `CheckLate` returns true exactly when the paid date is
strictly after the due date, with no presence check; provided the due date
is not strictly before the Go zero time instant, this coincides with the
claimed predicate: a paid date is present (non-zero) and strictly after the
due date.  A payment settled exactly on its due date is never late, and
under the stated proviso neither is a payment with an absent paid date. -/
theorem checkLate_iff_present_and_after (p : Payment)
    (hdue : ¬ GoTime.ltProp p.dueDate GoTime.zero) :
    p.CheckLate = true ↔
      (p.paidDate ≠ GoTime.zero ∧ GoTime.ltProp p.dueDate p.paidDate) := by
  rw [Payment.checkLate_eq_after, GoTime.after_iff]
  constructor
  · intro h
    refine ⟨?_, h⟩
    intro hz
    rw [hz] at h
    exact hdue h
  · intro h
    exact h.2

/-- Witness for C8 (amended) at a concrete paid-late payment. -/
theorem checkLate_iff_present_and_after_witness :
    (¬ GoTime.ltProp (Payment.dueDate ⟨1, 1, 1, 100, 100,
        ⟨2024, 1, 15, 0, 0, 0, 0⟩, ⟨2024, 1, 16, 0, 0, 0, 0⟩, GoTime.zero⟩)
        GoTime.zero) ∧
    (Payment.CheckLate ⟨1, 1, 1, 100, 100, ⟨2024, 1, 15, 0, 0, 0, 0⟩,
        ⟨2024, 1, 16, 0, 0, 0, 0⟩, GoTime.zero⟩ = true ↔
      (Payment.paidDate ⟨1, 1, 1, 100, 100, ⟨2024, 1, 15, 0, 0, 0, 0⟩,
          ⟨2024, 1, 16, 0, 0, 0, 0⟩, GoTime.zero⟩ ≠ GoTime.zero ∧
        GoTime.ltProp
          (Payment.dueDate ⟨1, 1, 1, 100, 100, ⟨2024, 1, 15, 0, 0, 0, 0⟩,
            ⟨2024, 1, 16, 0, 0, 0, 0⟩, GoTime.zero⟩)
          (Payment.paidDate ⟨1, 1, 1, 100, 100, ⟨2024, 1, 15, 0, 0, 0, 0⟩,
            ⟨2024, 1, 16, 0, 0, 0, 0⟩, GoTime.zero⟩))) :=
  ⟨by decide, checkLate_iff_present_and_after _ (by decide)⟩

/-! ## Claim theorems: amortization calculator -/

/-- C3: at a zero annual rate the monthly payment is exactly
`principal / termMonths`, and `termMonths` such installments sum exactly to
the principal (float64 arithmetic is modelled by exact rationals, in which
every value is finite). -/
theorem zeroRate_payment_eq_principal_div_term (P : ℚ) (N : Int)
    (hP : 0 < P) (hN : 1 ≤ N) :
    calculateMonthlyPayment P 0 N = P / (N : ℚ) ∧
    (N : ℚ) * calculateMonthlyPayment P 0 N = P := by
  have hN0 : (N : ℚ) ≠ 0 := Int.cast_ne_zero.mpr (by omega)
  have h1 : calculateMonthlyPayment P 0 N = P / (N : ℚ) := by
    simp [calculateMonthlyPayment]
  refine ⟨h1, ?_⟩
  rw [h1]
  field_simp

/-- Witness for C3 at the spec's own known-value case
(P = 12000, N = 12 → exactly 1000 per month). -/
theorem zeroRate_payment_witness :
    0 < (12000 : ℚ) ∧ 1 ≤ (12 : Int) ∧
    (calculateMonthlyPayment 12000 0 12 = 12000 / ((12 : Int) : ℚ) ∧
      ((12 : Int) : ℚ) * calculateMonthlyPayment 12000 0 12 = 12000) :=
  ⟨by norm_num, by norm_num,
    zeroRate_payment_eq_principal_div_term 12000 12 (by norm_num) (by norm_num)⟩

/-! ## Claim theorems: due-date generator -/

theorem daysInMonth_lower (y m : Int) : 28 ≤ daysInMonth y m := by
  unfold daysInMonth
  split_ifs <;> norm_num

theorem daysInMonth_upper (y m : Int) : daysInMonth y m ≤ 31 := by
  unfold daysInMonth
  split_ifs <;> norm_num

/-- The month-normalization loop computes the usual Euclidean split of the
month count into years and a residual month in 1..12. -/
theorem normalizeYM_eq (y m : Int) (hm : 1 ≤ m) :
    normalizeYM y m = (y + (m - 1) / 12, (m - 1) % 12 + 1) := by
  have H : ∀ fuel : Nat, ∀ y m : Int, m.toNat ≤ fuel → 1 ≤ m →
      normalizeYM y m = (y + (m - 1) / 12, (m - 1) % 12 + 1) := by
    intro fuel
    induction fuel with
    | zero =>
      intro y m h1 h2
      omega
    | succ fuel ih =>
      intro y m h1 h2
      rw [normalizeYM]
      split_ifs with h
      · rw [ih (y + 1) (m - 12) (by omega) (by omega)]
        simp only [Prod.mk.injEq]
        omega
      · simp only [Prod.mk.injEq]
        omega
  exact H m.toNat y m le_rfl hm

/-- C2: for every normalized start date, positive month offset and
`dayDue ∈ 1..31`, `calculateDueDate` lands in the calendar month obtained
by adding the offset to the start month (wrapping into subsequent years),
its day is `min(dayDue, days in that month)` — clamped at month end, never
spilling into the following month — and its time of day is zero (UTC). -/
theorem calculateDueDate_spec (s : GoTime) (k dayDue : Int)
    (hm1 : 1 ≤ s.month) (hm2 : s.month ≤ 12) (hk : 1 ≤ k)
    (hd1 : 1 ≤ dayDue) (hd2 : dayDue ≤ 31) :
    calculateDueDate s k dayDue =
      ⟨s.year + (s.month + k - 1) / 12, (s.month + k - 1) % 12 + 1,
        min dayDue
          (daysInMonth (s.year + (s.month + k - 1) / 12)
            ((s.month + k - 1) % 12 + 1)),
        0, 0, 0, 0⟩ ∧
    1 ≤ (s.month + k - 1) % 12 + 1 ∧ (s.month + k - 1) % 12 + 1 ≤ 12 ∧
    (calculateDueDate s k dayDue).day ≤
      daysInMonth (s.year + (s.month + k - 1) / 12)
        ((s.month + k - 1) % 12 + 1) ∧
    1 ≤ (calculateDueDate s k dayDue).day := by
  have hL := daysInMonth_lower (s.year + (s.month + k - 1) / 12)
    ((s.month + k - 1) % 12 + 1)
  have hn : normalizeYM s.year (s.month + k) =
      (s.year + (s.month + k - 1) / 12, (s.month + k - 1) % 12 + 1) :=
    normalizeYM_eq s.year (s.month + k) (by omega)
  have hcd : calculateDueDate s k dayDue =
      ⟨s.year + (s.month + k - 1) / 12, (s.month + k - 1) % 12 + 1,
        if daysInMonth (s.year + (s.month + k - 1) / 12)
            ((s.month + k - 1) % 12 + 1) < dayDue then
          daysInMonth (s.year + (s.month + k - 1) / 12)
            ((s.month + k - 1) % 12 + 1)
        else dayDue,
        0, 0, 0, 0⟩ := by
    unfold calculateDueDate
    rw [hn]
  rw [hcd]
  refine ⟨?_, by omega, by omega, ?_, ?_⟩
  · simp only [GoTime.mk.injEq, true_and, and_true]
    rw [min_def]
    split_ifs <;> omega
  · simp only []
    split_ifs <;> omega
  · simp only []
    split_ifs <;> omega

/-- Witness for C2 at the spec's month-end-clamp test case:
start 2024-01-31, offset 1, dayDue 31 lands on 2024-02-29 (leap year). -/
theorem calculateDueDate_spec_witness :
    (1 ≤ GoTime.month ⟨2024, 1, 31, 0, 0, 0, 0⟩) ∧
    (GoTime.month ⟨2024, 1, 31, 0, 0, 0, 0⟩ ≤ 12) ∧
    (1 ≤ (1 : Int)) ∧ (1 ≤ (31 : Int)) ∧ ((31 : Int) ≤ 31) ∧
    (calculateDueDate ⟨2024, 1, 31, 0, 0, 0, 0⟩ 1 31 =
      ⟨GoTime.year ⟨2024, 1, 31, 0, 0, 0, 0⟩ +
          (GoTime.month ⟨2024, 1, 31, 0, 0, 0, 0⟩ + 1 - 1) / 12,
        (GoTime.month ⟨2024, 1, 31, 0, 0, 0, 0⟩ + 1 - 1) % 12 + 1,
        min 31
          (daysInMonth
            (GoTime.year ⟨2024, 1, 31, 0, 0, 0, 0⟩ +
              (GoTime.month ⟨2024, 1, 31, 0, 0, 0, 0⟩ + 1 - 1) / 12)
            ((GoTime.month ⟨2024, 1, 31, 0, 0, 0, 0⟩ + 1 - 1) % 12 + 1)),
        0, 0, 0, 0⟩ ∧
      1 ≤ (GoTime.month ⟨2024, 1, 31, 0, 0, 0, 0⟩ + 1 - 1) % 12 + 1 ∧
      (GoTime.month ⟨2024, 1, 31, 0, 0, 0, 0⟩ + 1 - 1) % 12 + 1 ≤ 12 ∧
      (calculateDueDate ⟨2024, 1, 31, 0, 0, 0, 0⟩ 1 31).day ≤
        daysInMonth
          (GoTime.year ⟨2024, 1, 31, 0, 0, 0, 0⟩ +
            (GoTime.month ⟨2024, 1, 31, 0, 0, 0, 0⟩ + 1 - 1) / 12)
          ((GoTime.month ⟨2024, 1, 31, 0, 0, 0, 0⟩ + 1 - 1) % 12 + 1) ∧
      1 ≤ (calculateDueDate ⟨2024, 1, 31, 0, 0, 0, 0⟩ 1 31).day) :=
  ⟨by decide, by decide, by decide, by decide, by decide,
    calculateDueDate_spec ⟨2024, 1, 31, 0, 0, 0, 0⟩ 1 31
      (by decide) (by decide) (by decide) (by decide) (by decide)⟩

/-! ## Claim theorems: positive-rate total-cost bounds -/

/-- C9 counterexample: at principal 1, annual rate 1 (100%), term 24
months, the total paid `termMonths * monthlyPayment` exceeds
`principal * (1 + annualRate)`: the claimed flat annual-rate ceiling fails
for terms longer than a year. -/
theorem positiveRate_flat_ceiling_cex :
    0 < (1 : ℚ) ∧ 0 < (1 : ℚ) ∧ 1 ≤ (24 : Int) ∧
    ¬ (((24 : Int) : ℚ) * calculateMonthlyPayment 1 1 24 ≤ 1 * (1 + 1)) := by
  refine ⟨by norm_num, by norm_num, by norm_num, ?_⟩
  rw [not_le]
  have h24 : calculateMonthlyPayment 1 1 24 =
      1 * ((1 / 12 * (1 + 1 / 12 : ℚ) ^ (24 : ℕ)) /
        ((1 + 1 / 12 : ℚ) ^ (24 : ℕ) - 1)) := by
    have : ((24 : ℕ) : ℤ) = (24 : ℤ) := by norm_num
    simp only [calculateMonthlyPayment, if_neg (by norm_num : ¬ (1 : ℚ) = 0),
      ← this, zpow_natCast]
  rw [h24]
  norm_num

/-- C9 (amended): for every principal P > 0, annual rate r > 0 and term
N ≥ 1, the total paid `N * calculateMonthlyPayment P r N` strictly exceeds
P and is bounded above by `P * (1 + r * N / 12)`, the simple-interest
ceiling (the flat `P * (1 + r)` ceiling fails for N > 12). -/
theorem positiveRate_total_bounds (P r : ℚ) (N : Int)
    (hP : 0 < P) (hr : 0 < r) (hN : 1 ≤ N) :
    P < (N : ℚ) * calculateMonthlyPayment P r N ∧
    (N : ℚ) * calculateMonthlyPayment P r N ≤ P * (1 + r * (N : ℚ) / 12) := by
  obtain ⟨n, rfl⟩ : ∃ n : ℕ, N = (n : ℤ) :=
    ⟨N.toNat, (Int.toNat_of_nonneg (by omega)).symm⟩
  have hn1 : 1 ≤ n := by exact_mod_cast hN
  have hM : calculateMonthlyPayment P r ((n : ℕ) : ℤ) =
      P * ((r / 12 * (1 + r / 12) ^ n) / ((1 + r / 12) ^ n - 1)) := by
    simp only [calculateMonthlyPayment, if_neg hr.ne', zpow_natCast]
  set i : ℚ := r / 12 with hidef
  have hi : 0 < i := by positivity
  set x : ℚ := (1 + i) ^ n with hx
  have hx1 : 1 < x := by
    rw [hx]
    exact one_lt_pow₀ (by linarith) (by omega)
  have hx0 : 0 < x - 1 := by linarith
  have hgeom : (∑ k in Finset.range n, (1 + i) ^ k) * i = x - 1 := by
    have h := geom_sum_mul (1 + i) n
    rw [hx]
    simpa using h
  have hsum_lt : (∑ k in Finset.range n, (1 + i) ^ k) < (n : ℚ) * x := by
    have h1 : ∀ k ∈ Finset.range n, (1 + i) ^ k < x := by
      intro k hk
      rw [hx]
      exact pow_lt_pow_right₀ (by linarith) (Finset.mem_range.mp hk)
    calc (∑ k in Finset.range n, (1 + i) ^ k)
        < ∑ _k in Finset.range n, x :=
          Finset.sum_lt_sum_of_nonempty (Finset.nonempty_range_iff.mpr (by omega)) h1
      _ = (n : ℚ) * x := by
          simp [Finset.sum_const, Finset.card_range, nsmul_eq_mul]
  have key1 : x - 1 < (n : ℚ) * i * x := by
    calc x - 1 = (∑ k in Finset.range n, (1 + i) ^ k) * i := hgeom.symm
      _ < ((n : ℚ) * x) * i := mul_lt_mul_of_pos_right hsum_lt hi
      _ = (n : ℚ) * i * x := by ring
  have bern : 1 + (n : ℚ) * i ≤ x := by
    rw [hx]
    exact one_add_mul_le_pow (by linarith) n
  have h2 : (((n : ℕ) : ℤ) : ℚ) * (P * ((i * x) / (x - 1))) =
      P * ((n : ℚ) * i * x) / (x - 1) := by
    push_cast
    ring
  constructor
  · rw [hM, h2, lt_div_iff₀ hx0]
    nlinarith [mul_lt_mul_of_pos_left key1 hP]
  · have h3 : P * (1 + r * (((n : ℕ) : ℤ) : ℚ) / 12) = P * (1 + (n : ℚ) * i) := by
      rw [hidef]
      push_cast
      ring
    have h4 : 0 ≤ P * (x - 1 - (n : ℚ) * i) := mul_nonneg hP.le (by linarith)
    rw [hM, h2, h3, div_le_iff₀ hx0]
    nlinarith [h4]

/-- Witness for C9 (amended) at P = 1, r = 12 (monthly rate 1), N = 1:
the single payment is 2, strictly above the principal and exactly at the
simple-interest ceiling. -/
theorem positiveRate_total_bounds_witness :
    0 < (1 : ℚ) ∧ 0 < (12 : ℚ) ∧ 1 ≤ (1 : Int) ∧
    (1 < ((1 : Int) : ℚ) * calculateMonthlyPayment 1 12 1 ∧
      ((1 : Int) : ℚ) * calculateMonthlyPayment 1 12 1 ≤
        1 * (1 + 12 * ((1 : Int) : ℚ) / 12)) :=
  ⟨by norm_num, by norm_num, by norm_num,
    positiveRate_total_bounds 1 12 1 (by norm_num) (by norm_num) (by norm_num)⟩

/-! ## Schedule builder: loop characterization -/

theorem scheduledPayment_paymentNumber (clock : GoTime) (loanID : Int) (M : ℚ)
    (dayDue : Int) (dateTaken now : GoTime) (auto : Bool) (num pid : Int) :
    (scheduledPayment clock loanID M dayDue dateTaken now auto num pid).paymentNumber
      = num := rfl

theorem scheduledPayment_loanID (clock : GoTime) (loanID : Int) (M : ℚ)
    (dayDue : Int) (dateTaken now : GoTime) (auto : Bool) (num pid : Int) :
    (scheduledPayment clock loanID M dayDue dateTaken now auto num pid).loanID
      = loanID := rfl

theorem scheduledPayment_amountDue (clock : GoTime) (loanID : Int) (M : ℚ)
    (dayDue : Int) (dateTaken now : GoTime) (auto : Bool) (num pid : Int) :
    (scheduledPayment clock loanID M dayDue dateTaken now auto num pid).amountDue
      = M := rfl

theorem scheduledPayment_dueDate (clock : GoTime) (loanID : Int) (M : ℚ)
    (dayDue : Int) (dateTaken now : GoTime) (auto : Bool) (num pid : Int) :
    (scheduledPayment clock loanID M dayDue dateTaken now auto num pid).dueDate
      = calculateDueDate dateTaken num dayDue := rfl

theorem scheduledPayment_past (clock : GoTime) (loanID : Int) (M : ℚ)
    (dayDue : Int) (dateTaken now : GoTime) (auto : Bool) (num pid : Int)
    (h : (auto && GoTime.before (calculateDueDate dateTaken num dayDue) now) = true) :
    (scheduledPayment clock loanID M dayDue dateTaken now auto num pid).amountPaid = M ∧
    (scheduledPayment clock loanID M dayDue dateTaken now auto num pid).paidDate
      = calculateDueDate dateTaken num dayDue := by
  constructor <;> simp [scheduledPayment, h]

theorem scheduledPayment_future (clock : GoTime) (loanID : Int) (M : ℚ)
    (dayDue : Int) (dateTaken now : GoTime) (auto : Bool) (num pid : Int)
    (h : (auto && GoTime.before (calculateDueDate dateTaken num dayDue) now) = false) :
    (scheduledPayment clock loanID M dayDue dateTaken now auto num pid).amountPaid = 0 ∧
    (scheduledPayment clock loanID M dayDue dateTaken now auto num pid).paidDate
      = GoTime.zero := by
  constructor <;> simp [scheduledPayment, h]

/-- When no `CreatePayment` call fails, the schedule loop starting at
installment number `i` with `n` iterations left appends exactly the `n`
records `scheduledPayment` describes, with consecutive installment numbers
and row ids, and returns them in order. -/
theorem schedLoop_ok (loanID : Int) (M : ℚ) (dayDue : Int) (dateTaken : GoTime)
    (auto : Bool) (now : GoTime) :
    ∀ (n : Nat) (db : DBState) (i : Int),
      (∀ k : Nat, k < n → db.paymentCreateFails (i + (k : Int)) = false) →
      schedLoop loanID M dayDue dateTaken auto now db i n =
        ({ db with
            nextPaymentID := db.nextPaymentID + (n : Int),
            storedPayments := db.storedPayments ++
              (List.range n).map (fun k : Nat =>
                scheduledPayment db.clock loanID M dayDue dateTaken now auto
                  (i + (k : Int)) (db.nextPaymentID + (k : Int))) },
         .ok ((List.range n).map (fun k : Nat =>
            scheduledPayment db.clock loanID M dayDue dateTaken now auto
              (i + (k : Int)) (db.nextPaymentID + (k : Int))))) := by
  intro n
  induction n with
  | zero =>
    intro db i _h
    simp [schedLoop]
  | succ n ih =>
    intro db i h
    have h0 : db.paymentCreateFails i = false := by simpa using h 0 (by omega)
    have h' : ∀ k : Nat, k < n →
        db.paymentCreateFails (i + 1 + (k : Int)) = false := by
      intro k hk
      have hh := h (k + 1) (by omega)
      have e : i + ((k + 1 : Nat) : Int) = i + 1 + (k : Int) := by push_cast; ring
      rwa [e] at hh
    rw [schedLoop]
    simp only [CreatePayment, h0, Bool.false_eq_true, if_false]
    rw [ih _ (i + 1) (by simpa using h')]
    have hfun : ((fun k : Nat =>
        scheduledPayment db.clock loanID M dayDue dateTaken now auto
          (i + (k : Int)) (db.nextPaymentID + (k : Int))) ∘ Nat.succ) =
        (fun k : Nat =>
          scheduledPayment db.clock loanID M dayDue dateTaken now auto
            (i + 1 + (k : Int)) (db.nextPaymentID + 1 + (k : Int))) := by
      funext k
      have e1 : i + ((Nat.succ k : Nat) : Int) = i + 1 + (k : Int) := by
        push_cast; ring
      have e2 : db.nextPaymentID + ((Nat.succ k : Nat) : Int)
          = db.nextPaymentID + 1 + (k : Int) := by push_cast; ring
      simp only [Function.comp_apply, e1, e2]
    rw [List.range_succ_eq_map, List.map_cons, List.map_map, hfun]
    have e3 : db.nextPaymentID + 1 + (n : Int)
        = db.nextPaymentID + ((n + 1 : Nat) : Int) := by push_cast; ring
    simp [scheduledPayment, e3, List.append_assoc, Prod.mk.injEq,
      DBState.mk.injEq]

/-- `createPaymentSchedule` with no storage failures: the fully evaluated
result. -/
theorem createPaymentSchedule_ok (db : DBState) (loanID : Int) (P r : ℚ)
    (termMonths dayDue : Int) (dateTaken now : GoTime) (auto : Bool)
    (hok : ∀ k : Nat, k < termMonths.toNat →
      db.paymentCreateFails (1 + (k : Int)) = false) :
    createPaymentSchedule db loanID P r termMonths dayDue dateTaken auto now =
      ({ db with
          nextPaymentID := db.nextPaymentID + (termMonths.toNat : Int),
          storedPayments := db.storedPayments ++
            (List.range termMonths.toNat).map (fun k : Nat =>
              scheduledPayment db.clock loanID
                (calculateMonthlyPayment P r termMonths) dayDue dateTaken now
                auto (1 + (k : Int)) (db.nextPaymentID + (k : Int))) },
       .ok ((List.range termMonths.toNat).map (fun k : Nat =>
          scheduledPayment db.clock loanID
            (calculateMonthlyPayment P r termMonths) dayDue dateTaken now
            auto (1 + (k : Int)) (db.nextPaymentID + (k : Int))))) := by
  unfold createPaymentSchedule
  exact schedLoop_ok loanID (calculateMonthlyPayment P r termMonths) dayDue
    dateTaken auto now termMonths.toNat db 1 hok

/-- C1: with no storage failures, the schedule built by
`createPaymentSchedule` is partitioned by the current instant: when
`autoPayPastDue` is true, every installment whose due date is strictly
before `now` carries `amountPaid = monthlyPayment` and
`paidDate = dueDate`, and every installment whose due date is not before
`now` carries `amountPaid = 0` and the absent (zero) paid date; when
`autoPayPastDue` is false every installment is created unpaid. -/
theorem createPaymentSchedule_partition (db : DBState) (loanID : Int)
    (P r : ℚ) (termMonths dayDue : Int) (dateTaken now : GoTime) (auto : Bool)
    (hP : 0 < P) (hr : 0 ≤ r) (hterm : 1 ≤ termMonths)
    (hd1 : 1 ≤ dayDue) (hd2 : dayDue ≤ 31) (hdt : dateTaken ≠ GoTime.zero)
    (hok : ∀ j : Int, db.paymentCreateFails j = false) :
    ∃ db2 pmts,
      createPaymentSchedule db loanID P r termMonths dayDue dateTaken auto now
        = (db2, .ok pmts) ∧
      ∀ p ∈ pmts,
        p.amountDue = calculateMonthlyPayment P r termMonths ∧
        (auto = true → GoTime.before p.dueDate now = true →
          p.amountPaid = calculateMonthlyPayment P r termMonths ∧
          p.paidDate = p.dueDate) ∧
        (auto = true → GoTime.before p.dueDate now = false →
          p.amountPaid = 0 ∧ p.paidDate = GoTime.zero) ∧
        (auto = false → p.amountPaid = 0 ∧ p.paidDate = GoTime.zero) := by
  rw [createPaymentSchedule_ok db loanID P r termMonths dayDue dateTaken now
    auto (fun k _ => hok _)]
  refine ⟨_, _, rfl, ?_⟩
  intro p hp
  obtain ⟨k, -, rfl⟩ := List.mem_map.mp hp
  refine ⟨rfl, ?_, ?_, ?_⟩
  · intro ha hb
    rw [scheduledPayment_dueDate] at hb
    have hpast := scheduledPayment_past db.clock loanID
      (calculateMonthlyPayment P r termMonths) dayDue dateTaken now auto
      (1 + (k : Int)) (db.nextPaymentID + (k : Int)) (by rw [ha, hb]; rfl)
    exact ⟨hpast.1, by rw [hpast.2, scheduledPayment_dueDate]⟩
  · intro ha hb
    rw [scheduledPayment_dueDate] at hb
    exact scheduledPayment_future db.clock loanID
      (calculateMonthlyPayment P r termMonths) dayDue dateTaken now auto
      (1 + (k : Int)) (db.nextPaymentID + (k : Int)) (by rw [ha, hb]; rfl)
  · intro ha
    exact scheduledPayment_future db.clock loanID
      (calculateMonthlyPayment P r termMonths) dayDue dateTaken now auto
      (1 + (k : Int)) (db.nextPaymentID + (k : Int)) (by rw [ha]; rfl)

/-- Witness for C1: a two-installment backdated loan with
`autoPayPastDue = true`, taken 2024-01-15 with `now` = 2024-03-01. -/
theorem createPaymentSchedule_partition_witness :
    (0 < (1000 : ℚ)) ∧ (0 ≤ (0 : ℚ)) ∧ (1 ≤ (2 : Int)) ∧ (1 ≤ (15 : Int)) ∧
    ((15 : Int) ≤ 31) ∧ ((⟨2024, 1, 15, 0, 0, 0, 0⟩ : GoTime) ≠ GoTime.zero) ∧
    (∃ db2 pmts,
      createPaymentSchedule
          ⟨1, 1, 1, GoTime.zero, [], [], [], false, false, fun _ => false⟩
          7 1000 0 2 15 ⟨2024, 1, 15, 0, 0, 0, 0⟩ true ⟨2024, 3, 1, 0, 0, 0, 0⟩
        = (db2, .ok pmts) ∧
      ∀ p ∈ pmts,
        p.amountDue = calculateMonthlyPayment 1000 0 2 ∧
        (true = true → GoTime.before p.dueDate ⟨2024, 3, 1, 0, 0, 0, 0⟩ = true →
          p.amountPaid = calculateMonthlyPayment 1000 0 2 ∧
          p.paidDate = p.dueDate) ∧
        (true = true → GoTime.before p.dueDate ⟨2024, 3, 1, 0, 0, 0, 0⟩ = false →
          p.amountPaid = 0 ∧ p.paidDate = GoTime.zero) ∧
        (true = false → p.amountPaid = 0 ∧ p.paidDate = GoTime.zero)) :=
  ⟨by norm_num, by norm_num, by norm_num, by norm_num, by norm_num, by decide,
    createPaymentSchedule_partition
      ⟨1, 1, 1, GoTime.zero, [], [], [], false, false, fun _ => false⟩
      7 1000 0 2 15 ⟨2024, 1, 15, 0, 0, 0, 0⟩ ⟨2024, 3, 1, 0, 0, 0, 0⟩ true
      (by norm_num) (by norm_num) (by norm_num) (by norm_num) (by norm_num)
      (by decide) (fun _ => rfl)⟩

/-! ## Loan origination workflow lemmas -/

theorem validateLoanParameters_none (totalAmount interestRate : ℚ)
    (termMonths dayDue : Int) (dateTaken : GoTime)
    (h1 : 0 < totalAmount) (h2 : 0 ≤ interestRate) (h3 : 1 ≤ termMonths)
    (h4 : 1 ≤ dayDue) (h5 : dayDue ≤ 31) (h6 : dateTaken ≠ GoTime.zero) :
    validateLoanParameters totalAmount interestRate termMonths dayDue dateTaken
      = none := by
  unfold validateLoanParameters
  rw [if_neg (by linarith), if_neg (by linarith), if_neg (by omega),
    if_neg (by omega), if_neg (by simp [GoTime.isZero, h6])]

/-- C5: whenever an input violates a stated parameter constraint, both
`InitializeUserWithLoan` and `AddLoanToExistingUser` fail with the single
validation error `validateLoanParameters` produces — which names the
violated field and carries the offending value — and the database state is
returned untouched: no user, loan or installment is created. -/
theorem validation_failure_no_writes (db : DBState) (name email phone : String)
    (userID : Int) (totalAmount interestRate : ℚ) (termMonths dayDue : Int)
    (dateTaken : GoTime) (auto : Bool) (now : GoTime)
    (h : totalAmount ≤ 0 ∨ interestRate < 0 ∨ termMonths ≤ 0 ∨
      dayDue < 1 ∨ 31 < dayDue ∨ dateTaken = GoTime.zero) :
    ∃ e,
      validateLoanParameters totalAmount interestRate termMonths dayDue
        dateTaken = some e ∧
      namesInvalidField totalAmount interestRate termMonths dayDue dateTaken e ∧
      InitializeUserWithLoan db name email phone totalAmount interestRate
        termMonths dayDue dateTaken auto now
        = (db, .error (.wrapInvalidParams (.validation e))) ∧
      AddLoanToExistingUser db userID totalAmount interestRate termMonths
        dayDue dateTaken auto now
        = (db, .error (.wrapInvalidParams (.validation e))) := by
  have main : ∃ e,
      validateLoanParameters totalAmount interestRate termMonths dayDue
        dateTaken = some e ∧
      namesInvalidField totalAmount interestRate termMonths dayDue dateTaken e := by
    unfold validateLoanParameters
    by_cases h1 : totalAmount ≤ 0
    · exact ⟨.totalAmountNotPositive totalAmount, by rw [if_pos h1], rfl, h1⟩
    by_cases h2 : interestRate < 0
    · exact ⟨.interestRateNegative interestRate,
        by rw [if_neg h1, if_pos h2], rfl, h2⟩
    by_cases h3 : termMonths ≤ 0
    · exact ⟨.termMonthsNotPositive termMonths,
        by rw [if_neg h1, if_neg h2, if_pos h3], rfl, h3⟩
    by_cases h4 : dayDue < 1 ∨ 31 < dayDue
    · exact ⟨.dayDueOutOfRange dayDue,
        by rw [if_neg h1, if_neg h2, if_neg h3, if_pos h4], rfl, h4⟩
    have h6 : dateTaken = GoTime.zero := by
      rcases h with hh | hh | hh | hh | hh | hh
      · exact absurd hh h1
      · exact absurd hh h2
      · exact absurd hh h3
      · exact absurd (Or.inl hh) h4
      · exact absurd (Or.inr hh) h4
      · exact hh
    exact ⟨.dateTakenZero,
      by rw [if_neg h1, if_neg h2, if_neg h3, if_neg h4,
        if_pos (by simp [GoTime.isZero, h6])], h6⟩
  obtain ⟨e, he, hn⟩ := main
  refine ⟨e, he, hn, ?_, ?_⟩
  · unfold InitializeUserWithLoan
    rw [he]
  · unfold AddLoanToExistingUser
    rw [he]

/-- Witness for C5 at a concrete negative principal. -/
theorem validation_failure_no_writes_witness :
    ((-5 : ℚ) ≤ 0 ∨ (0 : ℚ) < 0 ∨ (12 : Int) ≤ 0 ∨
      (15 : Int) < 1 ∨ 31 < (15 : Int) ∨
      (⟨2024, 1, 1, 0, 0, 0, 0⟩ : GoTime) = GoTime.zero) ∧
    (∃ e,
      validateLoanParameters (-5) 0 12 15 ⟨2024, 1, 1, 0, 0, 0, 0⟩ = some e ∧
      namesInvalidField (-5) 0 12 15 ⟨2024, 1, 1, 0, 0, 0, 0⟩ e ∧
      InitializeUserWithLoan
          ⟨1, 1, 1, GoTime.zero, [], [], [], false, false, fun _ => false⟩
          "Bob" "bob@example.com" "555-1111" (-5) 0 12 15
          ⟨2024, 1, 1, 0, 0, 0, 0⟩ false GoTime.zero
        = (⟨1, 1, 1, GoTime.zero, [], [], [], false, false, fun _ => false⟩,
            .error (.wrapInvalidParams (.validation e))) ∧
      AddLoanToExistingUser
          ⟨1, 1, 1, GoTime.zero, [], [], [], false, false, fun _ => false⟩
          42 (-5) 0 12 15 ⟨2024, 1, 1, 0, 0, 0, 0⟩ false GoTime.zero
        = (⟨1, 1, 1, GoTime.zero, [], [], [], false, false, fun _ => false⟩,
            .error (.wrapInvalidParams (.validation e)))) :=
  ⟨Or.inl (by norm_num),
    validation_failure_no_writes
      ⟨1, 1, 1, GoTime.zero, [], [], [], false, false, fun _ => false⟩
      "Bob" "bob@example.com" "555-1111" 42 (-5) 0 12 15
      ⟨2024, 1, 1, 0, 0, 0, 0⟩ false GoTime.zero (Or.inl (by norm_num))⟩

/-- When the first failing `CreatePayment` call is the one for installment
`i + m` (with `m < n` iterations of the loop remaining), the loop returns
the wrapped error naming that installment and leaves installments
`i .. i+m-1` appended to the store. -/
theorem schedLoop_fail (loanID : Int) (M : ℚ) (dayDue : Int)
    (dateTaken : GoTime) (auto : Bool) (now : GoTime) :
    ∀ (m n : Nat) (db : DBState) (i : Int),
      m < n →
      (∀ k : Nat, k < m → db.paymentCreateFails (i + (k : Int)) = false) →
      db.paymentCreateFails (i + (m : Int)) = true →
      schedLoop loanID M dayDue dateTaken auto now db i n =
        ({ db with
            nextPaymentID := db.nextPaymentID + (m : Int),
            storedPayments := db.storedPayments ++
              (List.range m).map (fun k : Nat =>
                scheduledPayment db.clock loanID M dayDue dateTaken now auto
                  (i + (k : Int)) (db.nextPaymentID + (k : Int))) },
         .error (.wrapCreatePayment (i + (m : Int))
            (.storage "failed to create payment"))) := by
  intro m
  induction m with
  | zero =>
    intro n db i hmn hpre hfail
    obtain ⟨n', rfl⟩ : ∃ n', n = n' + 1 := ⟨n - 1, by omega⟩
    rw [schedLoop]
    simp only [Nat.cast_zero, add_zero] at hfail
    simp [CreatePayment, hfail]
  | succ m ih =>
    intro n db i hmn hpre hfail
    obtain ⟨n', rfl⟩ : ∃ n', n = n' + 1 := ⟨n - 1, by omega⟩
    have h0 : db.paymentCreateFails i = false := by simpa using hpre 0 (by omega)
    have hpre' : ∀ k : Nat, k < m →
        db.paymentCreateFails (i + 1 + (k : Int)) = false := by
      intro k hk
      have hh := hpre (k + 1) (by omega)
      have e : i + ((k + 1 : Nat) : Int) = i + 1 + (k : Int) := by push_cast; ring
      rwa [e] at hh
    have hfail' : db.paymentCreateFails (i + 1 + (m : Int)) = true := by
      have e : i + ((m + 1 : Nat) : Int) = i + 1 + (m : Int) := by push_cast; ring
      rwa [e] at hfail
    rw [schedLoop]
    simp only [CreatePayment, h0, Bool.false_eq_true, if_false]
    rw [ih n' _ (i + 1) (by omega) (by simpa using hpre') (by exact hfail')]
    have hfun : ((fun k : Nat =>
        scheduledPayment db.clock loanID M dayDue dateTaken now auto
          (i + (k : Int)) (db.nextPaymentID + (k : Int))) ∘ Nat.succ) =
        (fun k : Nat =>
          scheduledPayment db.clock loanID M dayDue dateTaken now auto
            (i + 1 + (k : Int)) (db.nextPaymentID + 1 + (k : Int))) := by
      funext k
      have e1 : i + ((Nat.succ k : Nat) : Int) = i + 1 + (k : Int) := by
        push_cast; ring
      have e2 : db.nextPaymentID + ((Nat.succ k : Nat) : Int)
          = db.nextPaymentID + 1 + (k : Int) := by push_cast; ring
      simp only [Function.comp_apply, e1, e2]
    rw [List.range_succ_eq_map, List.map_cons, List.map_map, hfun]
    have e3 : db.nextPaymentID + 1 + (m : Int)
        = db.nextPaymentID + ((m + 1 : Nat) : Int) := by push_cast; ring
    have e4 : i + 1 + (m : Int) = i + ((m + 1 : Nat) : Int) := by push_cast; ring
    simp [scheduledPayment, e3, e4, List.append_assoc, Prod.mk.injEq,
      DBState.mk.injEq]

/-- `createPaymentSchedule` when the first failing `CreatePayment` call is
the one for installment `1 + m`. -/
theorem createPaymentSchedule_fail (db : DBState) (loanID : Int) (P r : ℚ)
    (termMonths dayDue : Int) (dateTaken now : GoTime) (auto : Bool) (m : Nat)
    (hmn : m < termMonths.toNat)
    (hpre : ∀ k : Nat, k < m → db.paymentCreateFails (1 + (k : Int)) = false)
    (hfail : db.paymentCreateFails (1 + (m : Int)) = true) :
    createPaymentSchedule db loanID P r termMonths dayDue dateTaken auto now =
      ({ db with
          nextPaymentID := db.nextPaymentID + (m : Int),
          storedPayments := db.storedPayments ++
            (List.range m).map (fun k : Nat =>
              scheduledPayment db.clock loanID
                (calculateMonthlyPayment P r termMonths) dayDue dateTaken now
                auto (1 + (k : Int)) (db.nextPaymentID + (k : Int))) },
       .error (.wrapCreatePayment (1 + (m : Int))
          (.storage "failed to create payment"))) := by
  unfold createPaymentSchedule
  exact schedLoop_fail loanID (calculateMonthlyPayment P r termMonths) dayDue
    dateTaken auto now m termMonths.toNat db 1 hmn hpre hfail

/-- C6: with valid parameters, when creating installment `k` fails partway
through schedule creation, `InitializeUserWithLoan` aborts and surfaces an
error that names both the failing installment number `k` and the loan
identifier, while installments `1..k-1`, the loan and the borrower all
remain persisted — nothing is deleted or rolled back. -/
theorem schedule_failure_partial_state (db : DBState)
    (name email phone : String) (P r : ℚ) (termMonths dayDue : Int)
    (dateTaken now : GoTime) (auto : Bool) (k : Int)
    (hP : 0 < P) (hr : 0 ≤ r) (hterm : 1 ≤ termMonths)
    (hd1 : 1 ≤ dayDue) (hd2 : dayDue ≤ 31) (hdt : dateTaken ≠ GoTime.zero)
    (huser : db.userCreateFails = false) (hloan : db.loanCreateFails = false)
    (hk1 : 1 ≤ k) (hk2 : k ≤ termMonths)
    (hpre : ∀ j : Int, 1 ≤ j → j < k → db.paymentCreateFails j = false)
    (hfail : db.paymentCreateFails k = true) :
    ∃ db3 created,
      InitializeUserWithLoan db name email phone P r termMonths dayDue
          dateTaken auto now =
        (db3, .error (.wrapCreateSchedule db.nextLoanID
          (.wrapCreatePayment k (.storage "failed to create payment")))) ∧
      db3.storedPayments = db.storedPayments ++ created ∧
      created.map Payment.paymentNumber =
        (List.range (k - 1).toNat).map (fun j : Nat => 1 + (j : Int)) ∧
      (∀ p ∈ created, p.loanID = db.nextLoanID) ∧
      db3.storedLoans = db.storedLoans ++
        [⟨db.nextLoanID, db.nextUserID, P, r, termMonths, dayDue, "active",
          dateTaken, db.clock, []⟩] ∧
      db3.storedUsers = db.storedUsers ++
        [⟨db.nextUserID, name, email, phone, db.clock, []⟩] := by
  have ek : (1 : Int) + (((k - 1).toNat : Nat) : Int) = k := by omega
  unfold InitializeUserWithLoan
  rw [validateLoanParameters_none P r termMonths dayDue dateTaken
    hP hr hterm hd1 hd2 hdt]
  simp only [CreateUser, huser, Bool.false_eq_true, if_false]
  simp only [CreateLoan, hloan, Bool.false_eq_true, if_false]
  rw [createPaymentSchedule_fail
    ⟨db.nextUserID + 1, db.nextLoanID + 1, db.nextPaymentID, db.clock,
      db.storedUsers ++
        [(⟨db.nextUserID, name, email, phone, db.clock, []⟩ : User)],
      db.storedLoans ++
        [(⟨db.nextLoanID, db.nextUserID, P, r, termMonths,
          dayDue, "active", dateTaken, db.clock, []⟩ : Loan)],
      db.storedPayments, false, false, db.paymentCreateFails⟩
    db.nextLoanID P r termMonths dayDue dateTaken now auto (k - 1).toNat
    (by omega)
    (fun j hj => hpre (1 + (j : Int)) (by omega) (by omega))
    (by rw [ek]; exact hfail)]
  rw [ek]
  refine ⟨_, _, rfl, rfl, ?_, ?_, rfl, rfl⟩
  · rw [List.map_map]
    rfl
  · intro p hp
    obtain ⟨j, -, rfl⟩ := List.mem_map.mp hp
    rfl

/-- Witness for C6: a three-installment loan whose second `CreatePayment`
call fails; installment 1, the loan and the borrower remain stored. -/
theorem schedule_failure_partial_state_witness :
    (0 < (500 : ℚ)) ∧ (0 ≤ (0 : ℚ)) ∧ (1 ≤ (3 : Int)) ∧ (1 ≤ (10 : Int)) ∧
    ((10 : Int) ≤ 31) ∧ ((⟨2024, 1, 1, 0, 0, 0, 0⟩ : GoTime) ≠ GoTime.zero) ∧
    (DBState.userCreateFails
      ⟨1, 1, 1, GoTime.zero, [], [], [], false, false, fun n => n == 2⟩
      = false) ∧
    (DBState.loanCreateFails
      ⟨1, 1, 1, GoTime.zero, [], [], [], false, false, fun n => n == 2⟩
      = false) ∧
    (1 ≤ (2 : Int)) ∧ ((2 : Int) ≤ 3) ∧
    (∀ j : Int, 1 ≤ j → j < 2 →
      DBState.paymentCreateFails
        ⟨1, 1, 1, GoTime.zero, [], [], [], false, false, fun n => n == 2⟩ j
        = false) ∧
    (DBState.paymentCreateFails
      ⟨1, 1, 1, GoTime.zero, [], [], [], false, false, fun n => n == 2⟩ 2
      = true) ∧
    (∃ db3 created,
      InitializeUserWithLoan
          ⟨1, 1, 1, GoTime.zero, [], [], [], false, false, fun n => n == 2⟩
          "Cleo" "cleo@example.com" "555-2222" 500 0 3 10
          ⟨2024, 1, 1, 0, 0, 0, 0⟩ false GoTime.zero =
        (db3, .error (.wrapCreateSchedule 1
          (.wrapCreatePayment 2 (.storage "failed to create payment")))) ∧
      db3.storedPayments = [] ++ created ∧
      created.map Payment.paymentNumber =
        (List.range ((2 : Int) - 1).toNat).map (fun j : Nat => 1 + (j : Int)) ∧
      (∀ p ∈ created, p.loanID = 1) ∧
      db3.storedLoans = [] ++
        [⟨1, 1, 500, 0, 3, 10, "active", ⟨2024, 1, 1, 0, 0, 0, 0⟩,
          GoTime.zero, []⟩] ∧
      db3.storedUsers = [] ++
        [⟨1, "Cleo", "cleo@example.com", "555-2222", GoTime.zero, []⟩]) :=
  ⟨by norm_num, by norm_num, by norm_num, by norm_num, by norm_num, by decide,
    rfl, rfl, by norm_num, by norm_num,
    (fun j h1 h2 => by
      show (j == 2) = false
      rw [beq_eq_false_iff_ne]
      omega),
    by decide,
    schedule_failure_partial_state
      ⟨1, 1, 1, GoTime.zero, [], [], [], false, false, fun n => n == 2⟩
      "Cleo" "cleo@example.com" "555-2222" 500 0 3 10
      ⟨2024, 1, 1, 0, 0, 0, 0⟩ GoTime.zero false 2
      (by norm_num) (by norm_num) (by norm_num) (by norm_num) (by norm_num)
      (by decide) rfl rfl (by norm_num) (by norm_num)
      (fun j h1 h2 => by
        show (j == 2) = false
        rw [beq_eq_false_iff_ne]
        omega)
      (by decide)⟩

end DelinquencyTracker
